import Mathlib

/-!
Verification development for the HomeStore storage engine core.

This file shallowly embeds the checkpoint manager (`cp_mgr.cpp`), the
device manager (`device_manager.cpp`, here the unnamed source part with
`load_devices` / `create_vdev` / `load_vdevs`) and the dense-index lookup
helpers of `device.h`, and proves properties of the embedded operations.

Conventions of the embedding:
  * C++ machine integers that can only hold small counters are `Nat`/`Int`;
    the UINT32_MAX sentinels are spelled out as numerals.
  * `folly::SharedPromise` objects are identified by a `Nat` tag drawn from
    a monotone counter in the manager state, so that "same promise object"
    is expressible; resolving a promise is recorded as an event.
  * The sequential effect of each member function is an explicit
    state-passing function; the RCU read-side sections collapse to plain
    field access because a single-threaded execution is modelled.
  * Debug assertions that gate behaviour (the allowed-status check of
    `cp_ref`) are modelled as decidable predicates next to the operation.
-/

namespace HomeStoreModel

/-- Checkpoint status enum `cp_status_t` from `cp_mgr.hpp`. -/
inductive cp_status_t
  | cp_unknown
  | cp_io_ready
  | cp_trigger
  | cp_flush_prepare
  | cp_flushing
  | cp_flush_done
  | cp_cleaning
  | cp_done
  deriving DecidableEq, Repr

open cp_status_t

/-- A consumer context handed back by `CPCallbacks::on_switchover_cp`.
The token records which call produced it: the old cp id (none when called
from `register_consumer`, which passes `nullptr`), the new cp id and the
consumer slot index. -/
inductive CPContextTok
  | switched (oldId : Option Int) (newId : Int) (idx : Nat)
  deriving DecidableEq, Repr

/-- The `CP` object from `cp_mgr.hpp`, with the fields `cp_mgr.cpp` uses.
`m_comp_promise` is the identity tag of the currently-held
`folly::SharedPromise<bool>`. -/
structure CP where
  m_cp_id : Int
  m_cp_status : cp_status_t
  m_enter_cnt : Int
  m_cp_waiting_to_trigger : Bool
  m_comp_promise : Nat
  m_contexts : List (Option CPContextTok)
  deriving DecidableEq, Repr

/-- A freshly constructed `CP` (the `new CP(this)` expression): status and id
are defaulted, the entry count is zero, and the default-constructed
`SharedPromise` member receives a fresh identity tag `pid`. -/
def CP.fresh (pid : Nat) : CP :=
  { m_cp_id := 0
    m_cp_status := cp_unknown
    m_enter_cnt := 0
    m_cp_waiting_to_trigger := false
    m_comp_promise := pid
    m_contexts := [] }

/-- Observable events emitted by the checkpoint pipeline, in program order. -/
inductive CPEvent
  | sb_write (lastFlushed : Int)
  | cleanup (cpId : Int)
  | resolve (promise : Nat) (value : Bool)
  | in_flush_cleared
  | b2b_trigger
  | flush_fanout (cpId : Int) (consumers : List Nat)
  deriving DecidableEq, Repr

/-- The future handed back by `trigger_cp_flush`: either an already-resolved
`folly::makeFuture<bool>(v)`, or `promise.getFuture()` of the shared promise
with identity `pid`. -/
inductive FutureRet
  | resolvedNow (v : Bool)
  | fromPromise (pid : Nat)
  deriving DecidableEq, Repr

/-- `CPManager` state: the current CP (`m_cur_cp`), the CP whose consumer
flush futures are outstanding (`m_flushing_cp`, i.e. the argument of a
pending `cp_start_flush` pipeline), a CP that was switched out but still has
entries (`m_detached_cp`), the `m_in_flush_phase` flag, the superblock's
`m_last_flushed_cp`, the registration table `m_cp_cb_table` (whether each
slot holds callbacks), the fresh-promise counter, the shutdown flag, and the
event trace. -/
structure CPMgrState where
  m_cur_cp : CP
  m_flushing_cp : Option CP
  m_detached_cp : Option CP
  m_in_flush_phase : Bool
  m_last_flushed_cp : Int
  m_cb_table : List Bool
  m_next_promise : Nat
  m_cp_shutdown_initiated : Bool
  m_events : List CPEvent
  deriving DecidableEq, Repr

/-- `CPManager::cp_ref`: unconditionally increment the entry count. -/
def cp_ref (cp : CP) : CP :=
  { cp with m_enter_cnt := cp.m_enter_cnt + 1 }

/-- The status set the debug assertion inside `CPManager::cp_ref` accepts:
`cp_io_ready`, `cp_trigger` or `cp_flush_prepare`. -/
def cp_ref_status_allowed (st : cp_status_t) : Bool :=
  st = cp_io_ready || st = cp_trigger || st = cp_flush_prepare

/-- The consumer slots that are registered, in table order: the indices
`idx` with `m_cp_cb_table[idx] != nullptr`. -/
def registered_slots (tbl : List Bool) : List Nat :=
  (List.range tbl.length).filter (fun i => tbl.getD i false)

/-- `CPManager::cp_start_flush`: set the status to `cp_flushing` and fan out
`cp_flush(cp)` to every registered consumer (returned as the list of
consumer slots whose `cp_flush` was invoked, in table order). -/
def cp_start_flush (tbl : List Bool) (cp : CP) : CP × List Nat :=
  ({ cp with m_cp_status := cp_flushing }, registered_slots tbl)

/-- `CPManager::cp_io_exit`: decrement the entry count; if it reached zero
and the status is `cp_flush_prepare`, run `cp_start_flush`. The second
component is the fan-out list of `cp_start_flush` ( `[]` when no flush was
started). -/
def cp_io_exit (tbl : List Bool) (cp : CP) : CP × List Nat :=
  let cnt := cp.m_enter_cnt - 1
  let cp' := { cp with m_enter_cnt := cnt }
  if cnt = 0 ∧ cp.m_cp_status = cp_flush_prepare then cp_start_flush tbl cp'
  else (cp', [])

/-- Whether a `cp_io_exit` on `cp` starts the flush. -/
def cp_exit_fires (cp : CP) : Bool :=
  decide (cp.m_enter_cnt - 1 = 0) && decide (cp.m_cp_status = cp_flush_prepare)

/-- The contexts installed into a new CP by the `on_switchover_cp` loop of
`trigger_cp_flush`: registered slots receive the consumer's context, others
stay null. -/
def switchover_contexts (tbl : List Bool) (oldId : Option Int) (newId : Int) :
    List (Option CPContextTok) :=
  (List.range tbl.length).map
    (fun i => if tbl.getD i false then some (CPContextTok.switched oldId newId i) else none)

/-- `CPManager::create_first_cp`: a fresh CP with status `cp_io_ready` and
id `m_sb->m_last_flushed_cp + 1`. `pid` tags its default promise. -/
def create_first_cp (last_flushed : Int) (pid : Nat) : CP :=
  { CP.fresh pid with m_cp_status := cp_io_ready, m_cp_id := last_flushed + 1 }

/-- The critical section of `trigger_cp_flush` (the block from the
`cp_guard()` acquisition through the `rcu_xchg_pointer` swap,
`cp_mgr.cpp` lines 163-196). Input: state whose `m_in_flush_phase` was just
test-and-set. Returns the state after the pointer swap, the old CP as held
by the guard, and the future to return. -/
def trigger_critical_section (s : CPMgrState) : CPMgrState × CP × FutureRet :=
  let cur0 := cp_ref s.m_cur_cp
  let cur1 := { cur0 with m_cp_status := cp_trigger }
  let newCp0 := { CP.fresh s.m_next_promise with
                    m_cp_id := cur1.m_cp_id + 1
                    m_contexts := switchover_contexts s.m_cb_table (some cur1.m_cp_id)
                        (cur1.m_cp_id + 1) }
  let s1 := { s with m_next_promise := s.m_next_promise + 1 }
  let step2 : CPMgrState × CP × FutureRet :=
    if cur1.m_cp_waiting_to_trigger then
      (s1, cur1, FutureRet.resolvedNow true)
    else
      let pid := s1.m_next_promise
      ({ s1 with m_next_promise := pid + 1 },
       { cur1 with m_comp_promise := pid }, FutureRet.fromPromise pid)
  let s2 := step2.1
  let cur2 := step2.2.1
  let ret := step2.2.2
  let cur3 := { cur2 with m_cp_status := cp_flush_prepare }
  let newCp1 := { newCp0 with m_cp_status := cp_io_ready }
  ({ s2 with m_cur_cp := newCp1 }, cur3, ret)

/-- Release of the `cp_guard` holding the switched-out CP at the end of
`trigger_cp_flush`'s critical scope: a `cp_io_exit` on the old CP. When the
exit starts the flush, the old CP moves to the flushing pipeline and the
fan-out is recorded; otherwise it stays detached with outstanding entries. -/
def guard_release_old (s : CPMgrState) (old : CP) : CPMgrState :=
  let r := cp_io_exit s.m_cb_table old
  if cp_exit_fires old then
    { s with m_flushing_cp := some r.1
             m_events := s.m_events ++ [CPEvent.flush_fanout r.1.m_cp_id r.2] }
  else { s with m_detached_cp := some r.1 }

/-- Release of a `cp_guard` whose pointer is the detached (switched-out)
CP. Same routing as `guard_release_old`. -/
def guard_exit_detached (s : CPMgrState) : CPMgrState :=
  match s.m_detached_cp with
  | none => s
  | some old =>
    let r := cp_io_exit s.m_cb_table old
    if cp_exit_fires old then
      { s with m_detached_cp := none
               m_flushing_cp := some r.1
               m_events := s.m_events ++ [CPEvent.flush_fanout r.1.m_cp_id r.2] }
    else { s with m_detached_cp := some r.1 }

/-- Release of a `cp_guard` whose pointer is still the current CP (the
status of the current CP is never `cp_flush_prepare` under the trigger
mutex, so this exit never starts a flush). -/
def guard_exit_current (s : CPMgrState) : CPMgrState :=
  { s with m_cur_cp := (cp_io_exit s.m_cb_table s.m_cur_cp).1 }

/-- `CPManager::trigger_cp_flush` (`cp_mgr.cpp` lines 141-202).
If `m_in_flush_phase` was already set: with `force` the caller joins (or
installs) the shared promise of the current CP under `trigger_cp_mtx` and
marks it waiting-to-trigger; without `force` it gets a future already
resolved with `false`. Otherwise the critical section switches over to a
new CP and the guard release may start the old CP's flush. -/
def trigger_cp_flush (force : Bool) (s : CPMgrState) : CPMgrState × FutureRet :=
  if s.m_in_flush_phase then
    if force then
      let s1 := { s with m_cur_cp := cp_ref s.m_cur_cp }
      let cur := s1.m_cur_cp
      if cur.m_cp_waiting_to_trigger then
        (guard_exit_current s1, FutureRet.fromPromise cur.m_comp_promise)
      else
        let pid := s1.m_next_promise
        let s2 := { s1 with
                      m_cur_cp := { cur with m_comp_promise := pid,
                                             m_cp_waiting_to_trigger := true }
                      m_next_promise := pid + 1 }
        (guard_exit_current s2, FutureRet.fromPromise pid)
    else
      (s, FutureRet.resolvedNow false)
  else
    let s1 := { s with m_in_flush_phase := true }
    let r := trigger_critical_section s1
    (guard_release_old r.1 r.2.1, r.2.2)

/-- `CPManager::on_cp_flush_done` (`cp_mgr.cpp` lines 219-259), together
with the body run on the blocking io fiber: mark `cp_flush_done`, persist
the superblock with `++m_last_flushed_cp`, run `cleanup_cp`, resolve the
CP's completion promise with `true`, then (unless shutdown) clear
`m_in_flush_phase` and, if the current CP is waiting, trigger the
back-to-back CP while holding a `cp_guard`. -/
def on_cp_flush_done (s0 : CPMgrState) (cp : CP) : CPMgrState :=
  let cp1 := { cp with m_cp_status := cp_flush_done }
  let s1 := { s0 with
                m_last_flushed_cp := s0.m_last_flushed_cp + 1
                m_events := s0.m_events ++ [CPEvent.sb_write (s0.m_last_flushed_cp + 1)] }
  let cp2 := { cp1 with m_cp_status := cp_cleaning }
  let s2 := { s1 with m_events := s1.m_events ++ [CPEvent.cleanup cp2.m_cp_id] }
  let s3 := { s2 with
                m_flushing_cp := none
                m_events := s2.m_events ++ [CPEvent.resolve cp2.m_comp_promise true] }
  if s3.m_cp_shutdown_initiated then s3
  else
    let s4 := { s3 with
                  m_in_flush_phase := false
                  m_events := s3.m_events ++ [CPEvent.in_flush_cleared] }
    let s5 := { s4 with m_cur_cp := cp_ref s4.m_cur_cp }
    if s5.m_cur_cp.m_cp_waiting_to_trigger then
      let s6 := { s5 with m_events := s5.m_events ++ [CPEvent.b2b_trigger] }
      let s7 := (trigger_cp_flush false s6).1
      guard_exit_detached s7
    else
      guard_exit_current s5

/-- Completion of all consumer `cp_flush` futures for the CP in the
flushing pipeline (the `collectAllUnsafe(...).thenValue` continuation of
`cp_start_flush`): runs `on_cp_flush_done` on it. -/
def complete_flush (s : CPMgrState) : CPMgrState :=
  match s.m_flushing_cp with
  | some cp => on_cp_flush_done s cp
  | none => s

/-! ## CP watchdog (`CPWatchdog::cp_watchdog_timer`, `cp_mgr.cpp` 382-427) -/

/-- State sampled by one watchdog tick: the tracked CP (null when none),
the remembered progress percentage, the timer period in seconds, the
milliseconds elapsed since the last state change, and for each consumer
slot its `cp_progress_percent()` (none for unregistered slots). -/
structure CPWatchdogState where
  m_cp : Option CP
  m_progress_pct : Nat
  m_timer_sec : Nat
  elapsed_ms : Nat
  consumers : List (Option Nat)
  deriving DecidableEq, Repr

/-- What one watchdog tick did besides updating its own state. -/
inductive WatchdogAction
  | no_action
  | repaired (slots : List Nat)
  | fatal_cp_stuck
  deriving DecidableEq, Repr

/-- The first registered consumer slot whose progress differs from 100:
the repair loop of `cp_watchdog_timer` repairs it and returns immediately
(the `if (repair_attempted) return;` sits inside the loop body). -/
def first_lagging_consumer (cs : List (Option Nat)) : Option Nat :=
  (cs.enum.find? (fun ic =>
    match ic.2 with
    | some pct => decide (pct ≠ 100)
    | none => false)).map (fun ic => ic.1)

/-- Sum of `cp_progress_percent()` over registered consumer slots. -/
def cum_progress_pct (cs : List (Option Nat)) : Nat :=
  cs.foldl (fun r c => match c with | some p => r + p | none => r) 0

/-- Number of registered consumer slots. -/
def registered_count (cs : List (Option Nat)) : Nat :=
  (cs.filterMap id).length

/-- `CPWatchdog::cp_watchdog_timer`, translated statement by statement:
return when no CP is tracked; return when
`(status != cp_flush_prepare) || (status != cp_flushing)`; record progress
and return when the average progress advanced; while the elapsed time is
below `max_time_multiplier (= 12) * m_timer_sec * 1000` ms, repair the
first lagging consumer or, when every consumer reports 100, raise the
fatal "cp seems to be stuck" assertion; otherwise fall off the end. -/
def cp_watchdog_timer (w : CPWatchdogState) : CPWatchdogState × WatchdogAction :=
  match w.m_cp with
  | none => (w, WatchdogAction.no_action)
  | some cp =>
    let status := cp.m_cp_status
    if status ≠ cp_flush_prepare ∨ status ≠ cp_flushing then (w, WatchdogAction.no_action)
    else
      let avg := cum_progress_pct w.consumers / registered_count w.consumers
      if w.m_progress_pct > avg then
        ({ w with m_progress_pct := avg }, WatchdogAction.no_action)
      else
        let max_time_multiplier := 12
        if w.elapsed_ms < max_time_multiplier * w.m_timer_sec * 1000 then
          match first_lagging_consumer w.consumers with
          | some idx => (w, WatchdogAction.repaired [idx])
          | none => (w, WatchdogAction.fatal_cp_stuck)
        else (w, WatchdogAction.no_action)

/-! ## Device manager, current generation (`load_devices`, `create_vdev`,
`load_vdevs` from the device_manager source file) -/

/-- `first_block_header::CURRENT_SUPERBLOCK_VERSION`. Only its
(in)equality with the stored version matters to the embedded checks. -/
def CURRENT_SUPERBLOCK_VERSION : Nat := 1

/-- The fields of the newest-generation valid first block captured by the
`DeviceManager` constructor (`m_first_blk_hdr`) that `load_devices`
consults. The uuid is abstracted to a `Nat`. -/
structure first_block_header where
  version : Nat
  num_pdevs : Nat
  system_uuid : Nat
  deriving DecidableEq, Repr

/-- Per presented device: the first block read from it (`this_pdev_hdr`),
with the device name abstracted to a `Nat` tag. -/
structure dev_first_block where
  dev_name : Nat
  pdev_id : Nat
  system_uuid : Nat
  deriving DecidableEq, Repr

/-- The fatal refusals of `load_devices` (each a `RELEASE_ASSERT` in the
source). -/
inductive LoadDevError
  | version_mismatch
  | pdev_count_mismatch
  | uuid_mismatch (dev_name : Nat)
  deriving DecidableEq, Repr

/-- A persisted vdev slot returned by `read_vdev_infos`. -/
structure vdev_rec where
  vdev_id : Nat
  deriving DecidableEq, Repr

/-- A chunk record presented by `PhysicalDev::load_chunks`. -/
structure chunk_rec where
  chunk_id : Nat
  vdev_id : Nat
  deriving DecidableEq, Repr

/-- Observable outcome of `load_vdevs`: which vdev-id bitmap bits were
set, which chunk-id bitmap bits were set, which chunk slots of `m_chunks`
were registered, which `(vdev, chunk)` pairs saw `add_chunk`, and which
chunks were logged and ignored as dangling. -/
structure LoadVdevsResult where
  vdev_id_bits : List Nat
  chunk_id_bits : List Nat
  registered_chunks : List Nat
  vdev_chunk_adds : List (Nat × Nat)
  dangling_chunks : List chunk_rec
  deriving DecidableEq, Repr

/-- `DeviceManager::load_vdevs`: set the vdev-id bitmap bit and construct
the vdev for every persisted `vdev_info`; then, when any vdev exists, load
the chunks of every pdev: a chunk whose owning vdev slot is empty is
logged and skipped (`return false` from the callback), every other chunk
gets its chunk-id bit set, is registered in `m_chunks` and added to its
vdev. -/
def load_vdevs (vdevInfos : List vdev_rec) (chunks : List chunk_rec) : LoadVdevsResult :=
  let ids := vdevInfos.map vdev_rec.vdev_id
  if vdevInfos.isEmpty then
    { vdev_id_bits := ids
      chunk_id_bits := []
      registered_chunks := []
      vdev_chunk_adds := []
      dangling_chunks := [] }
  else
    let ok := chunks.filter (fun c => decide (c.vdev_id ∈ ids))
    let bad := chunks.filter (fun c => !(decide (c.vdev_id ∈ ids)))
    { vdev_id_bits := ids
      chunk_id_bits := ok.map chunk_rec.chunk_id
      registered_chunks := ok.map chunk_rec.chunk_id
      vdev_chunk_adds := ok.map (fun c => (c.vdev_id, c.chunk_id))
      dangling_chunks := bad }

/-- Result of a successful `load_devices`: the pdev ids stored into
`m_all_pdevs`, in presentation order, and the outcome of `load_vdevs`. -/
structure LoadedDevices where
  opened_pdevs : List Nat
  vdev_load : LoadVdevsResult
  deriving DecidableEq, Repr

/-- The per-device loop of `load_devices`: assert the device's first-block
uuid equals this instance's uuid, then open the pdev. -/
def open_all_pdevs (uuid : Nat) : List dev_first_block → Except LoadDevError (List Nat)
  | [] => Except.ok []
  | d :: rest =>
    if d.system_uuid ≠ uuid then Except.error (LoadDevError.uuid_mismatch d.dev_name)
    else
      match open_all_pdevs uuid rest with
      | Except.ok l => Except.ok (d.pdev_id :: l)
      | Except.error e => Except.error e

/-- `DeviceManager::load_devices`: refuse on a superblock version other
than the current one, refuse when the formatted pdev count differs from
the presented device count, refuse on any per-device uuid mismatch;
otherwise open every device and run `load_vdevs`. -/
def load_devices (hdr : first_block_header) (devs : List dev_first_block)
    (vdevInfos : List vdev_rec) (chunks : List chunk_rec) :
    Except LoadDevError LoadedDevices :=
  if hdr.version ≠ CURRENT_SUPERBLOCK_VERSION then Except.error LoadDevError.version_mismatch
  else if hdr.num_pdevs ≠ devs.length then Except.error LoadDevError.pdev_count_mismatch
  else
    match open_all_pdevs hdr.system_uuid devs with
    | Except.ok l => Except.ok { opened_pdevs := l, vdev_load := load_vdevs vdevInfos chunks }
    | Except.error e => Except.error e

/-- `sisl::round_up`. -/
def round_up (n s : Nat) : Nat := ((n + s - 1) / s) * s

/-- `vdev_multi_pdev_opts_t`. -/
inductive vdev_multi_pdev_opts_t
  | ALL_PDEV_STRIPED
  | ALL_PDEV_MIRRORED
  | SINGLE_FIRST_PDEV
  | SINGLE_ANY_PDEV
  deriving DecidableEq, Repr

/-- The slice of `PhysicalDev` that `create_vdev`'s sizing logic reads. -/
structure pdev_streams where
  num_streams : Nat
  deriving DecidableEq, Repr

/-- The slice of `vdev_parameters` that the sizing logic reads. -/
structure vdev_parameters where
  num_chunks : Nat
  vdev_size : Nat
  blk_size : Nat
  multi_pdev_opts : vdev_multi_pdev_opts_t
  deriving DecidableEq, Repr

/-- The resulting geometry of `create_vdev`. -/
structure VdevLayout where
  num_chunks : Nat
  vdev_size : Nat
  chunk_size : Nat
  num_pdevs_used : Nat
  chunks_per_pdev : Nat
  deriving DecidableEq, Repr

/-- `std::accumulate` of `num_streams()` over the chosen pdevs. -/
def total_streams (pdevs : List pdev_streams) : Nat :=
  pdevs.foldl (fun r a => r + a.num_streams) 0

/-- The placement-policy adjustment of `num_chunks` inside `create_vdev`
(the `if/else if` chain on `multi_pdev_opts`): returns the adjusted chunk
count and the number of pdevs kept (single-pdev placements erase all but
the first pdev). -/
def placement_step (vparam : vdev_parameters) (pdevs : List pdev_streams) : Nat × Nat :=
  match vparam.multi_pdev_opts with
  | vdev_multi_pdev_opts_t.ALL_PDEV_STRIPED =>
      (round_up vparam.num_chunks (total_streams pdevs), pdevs.length)
  | vdev_multi_pdev_opts_t.ALL_PDEV_MIRRORED =>
      (round_up vparam.num_chunks (pdevs.headD ⟨0⟩).num_streams * pdevs.length,
       pdevs.length)
  | _ => (vparam.num_chunks, 1)

/-- The sizing portion of `DeviceManager::create_vdev`: the placement
adjustment of `num_chunks`, followed by the clamp
`num_chunks = min(num_chunks, max_num_chunks)`, the round-up of
`vdev_size` to a multiple of `num_chunks * blk_size`, and
`chunk_size = vdev_size / num_chunks`. The chunk-creation loop runs
`num_chunks / pdevs.size()` times per chosen pdev. -/
def create_vdev_layout (vparam : vdev_parameters) (pdevs : List pdev_streams)
    (max_num_chunks : Nat) : VdevLayout :=
  let step1 := placement_step vparam pdevs
  let nc := min step1.1 max_num_chunks
  let vs := round_up vparam.vdev_size (nc * vparam.blk_size)
  { num_chunks := nc
    vdev_size := vs
    chunk_size := vs / nc
    num_pdevs_used := step1.2
    chunks_per_pdev := nc / step1.2 }

/-! ## Dense-index lookups of the legacy `DeviceManager` (`device.h`) -/

/-- `INVALID_CHUNK_ID` (`UINT32_MAX`). -/
def INVALID_CHUNK_ID : Nat := 4294967295

/-- `INVALID_PDEV_ID` (`UINT32_MAX`). -/
def INVALID_PDEV_ID : Nat := 4294967295

/-- The dense lookup arrays of the legacy `DeviceManager`; slots hold
abstract object tags. -/
structure DeviceManagerLookup where
  m_chunks : List (Option Nat)
  m_pdevs : List (Option Nat)
  deriving DecidableEq, Repr

/-- `DeviceManager::get_chunk`: the sentinel returns null without touching
the array; otherwise the dense slot is read. -/
def get_chunk (dm : DeviceManagerLookup) (chunk_id : Nat) : Option Nat :=
  if chunk_id = INVALID_CHUNK_ID then none else (dm.m_chunks.getD chunk_id none)

/-- `DeviceManager::get_chunk_mutable`: identical shape to `get_chunk`. -/
def get_chunk_mutable (dm : DeviceManagerLookup) (chunk_id : Nat) : Option Nat :=
  if chunk_id = INVALID_CHUNK_ID then none else (dm.m_chunks.getD chunk_id none)

/-- `DeviceManager::get_pdev`. -/
def get_pdev (dm : DeviceManagerLookup) (pdev_id : Nat) : Option Nat :=
  if pdev_id = INVALID_PDEV_ID then none else (dm.m_pdevs.getD pdev_id none)

/-! ## Theorems -/

/-- C10: for every lookup state, passing `INVALID_CHUNK_ID` to `get_chunk`
or `get_chunk_mutable`, or `INVALID_PDEV_ID` to `get_pdev`, returns the
null pointer without indexing the dense array: the sentinel lookups are
total. -/
theorem sentinel_lookups_return_null (dm : DeviceManagerLookup) :
    get_chunk dm INVALID_CHUNK_ID = none ∧
    get_chunk_mutable dm INVALID_CHUNK_ID = none ∧
    get_pdev dm INVALID_PDEV_ID = none := by
  refine ⟨?_, ?_, ?_⟩ <;> simp [get_chunk, get_chunk_mutable, get_pdev]

/-- The status guard of `cp_watchdog_timer`,
`(status != cp_flush_prepare) || (status != cp_flushing)`, holds for every
status (a status always differs from at least one of the two), so the
function returns before doing anything. -/
theorem watchdog_status_guard_tautology (st : cp_status_t) :
    st ≠ cp_flush_prepare ∨ st ≠ cp_flushing := by
  cases st <;> simp

/-- C6 (code evaluation): every watchdog tick is a no-op — for every
watchdog state, `cp_watchdog_timer` returns immediately with no repair and
no fatal assertion, because its status guard is a tautology. The
repair-and-assert logic the claim describes is unreachable. -/
theorem cp_watchdog_timer_no_action (w : CPWatchdogState) :
    cp_watchdog_timer w = (w, WatchdogAction.no_action) := by
  rcases h : w.m_cp with _ | cp
  · simp [cp_watchdog_timer, h]
  · simp [cp_watchdog_timer, h,
      if_pos (watchdog_status_guard_tautology cp.m_cp_status)]

/-- A checkpoint sitting in `cp_flush_prepare` with outstanding entries,
used to exhibit that `cp_ref` still accepts new references on it. -/
def flushPrepareCp : CP :=
  { m_cp_id := 7
    m_cp_status := cp_flush_prepare
    m_enter_cnt := 3
    m_cp_waiting_to_trigger := false
    m_comp_promise := 0
    m_contexts := [] }

/-- C3 counterexample: a new reference is accepted into a checkpoint whose
state is `cp_flush_prepare` — `cp_ref` increments the entry count and its
own debug assertion lists `cp_flush_prepare` among the allowed statuses,
contradicting the claim that no new entry is ever accepted once the state
is `cp_flush_prepare`. -/
theorem cp_ref_accepts_flush_prepare :
    flushPrepareCp.m_cp_status = cp_flush_prepare ∧
    (cp_ref flushPrepareCp).m_enter_cnt = flushPrepareCp.m_enter_cnt + 1 ∧
    cp_ref_status_allowed cp_flush_prepare = true :=
  ⟨rfl, rfl, rfl⟩

/-- C3 amended: `cp_ref` unconditionally increments the entry count, and
the statuses under which its debug assertion accepts a new reference are
exactly `cp_io_ready`, `cp_trigger` and `cp_flush_prepare`; only
`cp_flushing` and later statuses refuse new references. -/
theorem cp_ref_allowed_statuses (cp : CP) (st : cp_status_t) :
    (cp_ref cp).m_enter_cnt = cp.m_enter_cnt + 1 ∧
    (cp_ref_status_allowed st = true ↔
      st = cp_io_ready ∨ st = cp_trigger ∨ st = cp_flush_prepare) := by
  refine ⟨rfl, ?_⟩
  cases st <;> simp [cp_ref_status_allowed]

/-- Witness for the amended C3 statement at the `cp_flush_prepare`
checkpoint. -/
theorem cp_ref_allowed_statuses_witness :
    (cp_ref flushPrepareCp).m_enter_cnt = flushPrepareCp.m_enter_cnt + 1 ∧
    (cp_ref_status_allowed cp_flush_prepare = true ↔
      cp_flush_prepare = cp_io_ready ∨ cp_flush_prepare = cp_trigger ∨
      cp_flush_prepare = cp_flush_prepare) :=
  cp_ref_allowed_statuses flushPrepareCp cp_flush_prepare

/-- The divisor of `round_up` divides the result. -/
theorem round_up_dvd (n s : Nat) : s ∣ round_up n s :=
  dvd_mul_left s ((n + s - 1) / s)

/-- `round_up` with a positive divisor never shrinks its argument. -/
theorem le_round_up (n : Nat) {s : Nat} (hs : 0 < s) : n ≤ round_up n s := by
  have h := Nat.div_add_mod (n + s - 1) s
  have hr : (n + s - 1) % s < s := Nat.mod_lt _ hs
  unfold round_up
  rw [Nat.mul_comm]
  omega

/-- C8 counterexample inputs: two pdevs with two streams each (total
stream count 4), a striped request for 5 chunks, and a device set whose
chunk capacity (`max_num_chunks`) is 6. -/
def c8_vparam : vdev_parameters :=
  { num_chunks := 5
    vdev_size := 1000
    blk_size := 1
    multi_pdev_opts := vdev_multi_pdev_opts_t.ALL_PDEV_STRIPED }

/-- The two pdevs of the C8 counterexample. -/
def c8_pdevs : List pdev_streams := [⟨2⟩, ⟨2⟩]

/-- C8 counterexample: the adjusted chunk count is clamped by
`min(num_chunks, max_num_chunks)` after the round-up, so it is neither the
round-up of the request to the total stream count (8) nor a multiple of
the total stream count: the claim's "num_chunks is rounded up to a
multiple of the total stream count" fails on this input. -/
theorem create_vdev_layout_clamp_counterexample :
    (create_vdev_layout c8_vparam c8_pdevs 6).num_chunks = 6 ∧
    round_up c8_vparam.num_chunks (total_streams c8_pdevs) = 8 ∧
    ¬ (total_streams c8_pdevs ∣ (create_vdev_layout c8_vparam c8_pdevs 6).num_chunks) := by
  refine ⟨rfl, rfl, ?_⟩
  decide

/-- C8 amended: `create_vdev` first applies the placement adjustment
(striped: round `num_chunks` up to a multiple of the total stream count;
mirrored: round up to the first pdev's stream count and multiply by the
pdev count, creating `num_chunks / pdev_count` chunks per pdev) and then
clamps the result to the system-wide chunk capacity; whenever the clamp
does not bite, the adjusted count equals the placement round-up. The vdev
size is rounded up to a multiple of the final `num_chunks * blk_size`, so
`num_chunks * chunk_size = vdev_size` holds exactly. -/
theorem create_vdev_layout_spec (vp : vdev_parameters) (pdevs : List pdev_streams)
    (maxc : Nat) :
    (vp.multi_pdev_opts = vdev_multi_pdev_opts_t.ALL_PDEV_STRIPED →
        round_up vp.num_chunks (total_streams pdevs) ≤ maxc →
        (create_vdev_layout vp pdevs maxc).num_chunks
            = round_up vp.num_chunks (total_streams pdevs) ∧
        total_streams pdevs ∣ (create_vdev_layout vp pdevs maxc).num_chunks) ∧
    (vp.multi_pdev_opts = vdev_multi_pdev_opts_t.ALL_PDEV_MIRRORED →
        round_up vp.num_chunks (pdevs.headD ⟨0⟩).num_streams * pdevs.length ≤ maxc →
        (create_vdev_layout vp pdevs maxc).num_chunks
            = round_up vp.num_chunks (pdevs.headD ⟨0⟩).num_streams * pdevs.length) ∧
    (create_vdev_layout vp pdevs maxc).chunks_per_pdev
        = (create_vdev_layout vp pdevs maxc).num_chunks
            / (create_vdev_layout vp pdevs maxc).num_pdevs_used ∧
    (create_vdev_layout vp pdevs maxc).num_chunks ≤ maxc ∧
    (create_vdev_layout vp pdevs maxc).vdev_size
        = round_up vp.vdev_size
            ((create_vdev_layout vp pdevs maxc).num_chunks * vp.blk_size) ∧
    (0 < (create_vdev_layout vp pdevs maxc).num_chunks * vp.blk_size →
        vp.vdev_size ≤ (create_vdev_layout vp pdevs maxc).vdev_size) ∧
    (create_vdev_layout vp pdevs maxc).num_chunks
        * (create_vdev_layout vp pdevs maxc).chunk_size
      = (create_vdev_layout vp pdevs maxc).vdev_size := by
  have hdvd : (create_vdev_layout vp pdevs maxc).num_chunks
      ∣ (create_vdev_layout vp pdevs maxc).vdev_size :=
    dvd_trans (dvd_mul_right _ _) (round_up_dvd _ _)
  refine ⟨?_, ?_, rfl, Nat.min_le_right _ _, rfl, ?_, ?_⟩
  · intro h1 h2
    have hp : (placement_step vp pdevs).1 = round_up vp.num_chunks (total_streams pdevs) := by
      unfold placement_step
      rw [h1]
    constructor
    · show min (placement_step vp pdevs).1 maxc = _
      rw [hp]
      exact Nat.min_eq_left h2
    · show total_streams pdevs ∣ min (placement_step vp pdevs).1 maxc
      rw [hp, Nat.min_eq_left h2]
      exact round_up_dvd _ _
  · intro h1 h2
    have hp : (placement_step vp pdevs).1
        = round_up vp.num_chunks (pdevs.headD ⟨0⟩).num_streams * pdevs.length := by
      unfold placement_step
      rw [h1]
    show min (placement_step vp pdevs).1 maxc = _
    rw [hp]
    exact Nat.min_eq_left h2
  · intro hpos
    exact le_round_up _ hpos
  · exact Nat.mul_div_cancel' hdvd

/-- Membership in the consumer fan-out list: exactly the registered
slots. -/
theorem mem_registered_slots (tbl : List Bool) (i : Nat) :
    i ∈ registered_slots tbl ↔ (i < tbl.length ∧ tbl.getD i false = true) := by
  simp [registered_slots, List.mem_filter, List.mem_range]

/-- C2: on a checkpoint in `cp_flush_prepare` with a positive entry count,
`cp_io_exit` decrements the entry count by one; exactly when the count was
one (so the decrement reaches zero) the status moves to `cp_flushing` and
`cp_start_flush` fans `cp_flush` out to every registered consumer; with
more than one outstanding entry nothing else happens. -/
theorem cp_io_exit_spec (tbl : List Bool) (cp : CP)
    (hst : cp.m_cp_status = cp_flush_prepare) (hpos : 0 < cp.m_enter_cnt) :
    (cp_io_exit tbl cp).1.m_enter_cnt = cp.m_enter_cnt - 1 ∧
    (cp.m_enter_cnt = 1 →
        (cp_io_exit tbl cp).1.m_cp_status = cp_flushing ∧
        (cp_io_exit tbl cp).2 = registered_slots tbl ∧
        (∀ i, i ∈ (cp_io_exit tbl cp).2 ↔ (i < tbl.length ∧ tbl.getD i false = true))) ∧
    (1 < cp.m_enter_cnt →
        (cp_io_exit tbl cp).1.m_cp_status = cp_flush_prepare ∧
        (cp_io_exit tbl cp).2 = []) := by
  by_cases h1 : cp.m_enter_cnt = 1
  · have hc : cp.m_enter_cnt - 1 = 0 := by omega
    refine ⟨?_, fun _ => ⟨?_, ?_, fun i => ?_⟩, fun h2 => absurd h1 (by omega)⟩ <;>
      simp [cp_io_exit, cp_start_flush, hc, hst, mem_registered_slots]
  · have hc : ¬ (cp.m_enter_cnt - 1 = 0) := by omega
    refine ⟨?_, fun h2 => absurd h2 h1, fun _ => ⟨?_, ?_⟩⟩ <;>
      simp [cp_io_exit, hc, hst]

/-- A checkpoint whose last outstanding entry is about to exit. -/
def lastEntryCp : CP :=
  { m_cp_id := 3
    m_cp_status := cp_flush_prepare
    m_enter_cnt := 1
    m_cp_waiting_to_trigger := false
    m_comp_promise := 4
    m_contexts := [] }

/-- Witness for C2 at a three-slot table with the middle slot empty. -/
theorem cp_io_exit_spec_witness :
    lastEntryCp.m_cp_status = cp_flush_prepare ∧ (0:Int) < lastEntryCp.m_enter_cnt ∧
    ((cp_io_exit [true, false, true] lastEntryCp).1.m_enter_cnt
        = lastEntryCp.m_enter_cnt - 1 ∧
     (lastEntryCp.m_enter_cnt = 1 →
        (cp_io_exit [true, false, true] lastEntryCp).1.m_cp_status = cp_flushing ∧
        (cp_io_exit [true, false, true] lastEntryCp).2 = registered_slots [true, false, true] ∧
        (∀ i, i ∈ (cp_io_exit [true, false, true] lastEntryCp).2 ↔
            (i < [true, false, true].length ∧ [true, false, true].getD i false = true))) ∧
     (1 < lastEntryCp.m_enter_cnt →
        (cp_io_exit [true, false, true] lastEntryCp).1.m_cp_status = cp_flush_prepare ∧
        (cp_io_exit [true, false, true] lastEntryCp).2 = [])) :=
  ⟨rfl, by decide, cp_io_exit_spec [true, false, true] lastEntryCp rfl (by decide)⟩

/-- C9: during `load_vdevs` chunk reconstruction, a chunk whose recorded
vdev has no persisted entry is excluded — its id is set in no bitmap, it
is registered nowhere and added to no vdev — and it is logged as dangling
whenever the chunk scan runs at all, while every chunk whose vdev exists
gets its bitmap bit set, is registered and is added to that vdev
(`load_vdevs` is total, so loading succeeds either way). -/
theorem load_vdevs_spec (vdevInfos : List vdev_rec) (chunks : List chunk_rec)
    (hnodup : (chunks.map chunk_rec.chunk_id).Nodup) (c : chunk_rec) (hc : c ∈ chunks) :
    (c.vdev_id ∉ vdevInfos.map vdev_rec.vdev_id →
        c.chunk_id ∉ (load_vdevs vdevInfos chunks).chunk_id_bits ∧
        c.chunk_id ∉ (load_vdevs vdevInfos chunks).registered_chunks ∧
        (∀ v, (v, c.chunk_id) ∉ (load_vdevs vdevInfos chunks).vdev_chunk_adds) ∧
        (vdevInfos ≠ [] → c ∈ (load_vdevs vdevInfos chunks).dangling_chunks)) ∧
    (c.vdev_id ∈ vdevInfos.map vdev_rec.vdev_id →
        c.chunk_id ∈ (load_vdevs vdevInfos chunks).chunk_id_bits ∧
        c.chunk_id ∈ (load_vdevs vdevInfos chunks).registered_chunks ∧
        (c.vdev_id, c.chunk_id) ∈ (load_vdevs vdevInfos chunks).vdev_chunk_adds) := by
  have hinj := List.inj_on_of_nodup_map hnodup
  by_cases hemp : vdevInfos = []
  · subst hemp
    refine ⟨fun _ => ⟨?_, ?_, fun v => ?_, fun habs => absurd rfl habs⟩, fun h => absurd h (by simp)⟩ <;>
      simp [load_vdevs]
  · have hne : vdevInfos.isEmpty = false := by
      simpa using hemp
    constructor
    · intro hnot
      have hnot' : ¬ ∃ a ∈ vdevInfos, a.vdev_id = c.vdev_id := by
        simpa [List.mem_map] using hnot
      refine ⟨?_, ?_, fun v => ?_, fun _ => ?_⟩
      · intro hmem
        simp only [load_vdevs, hne, Bool.false_eq_true, if_false, List.mem_map,
          List.mem_filter, decide_eq_true_eq] at hmem
        obtain ⟨c', ⟨hc', hv'⟩, hid⟩ := hmem
        have hcc := hinj hc' hc hid
        subst hcc
        exact hnot' hv'
      · intro hmem
        simp only [load_vdevs, hne, Bool.false_eq_true, if_false, List.mem_map,
          List.mem_filter, decide_eq_true_eq] at hmem
        obtain ⟨c', ⟨hc', hv'⟩, hid⟩ := hmem
        have hcc := hinj hc' hc hid
        subst hcc
        exact hnot' hv'
      · intro hmem
        simp only [load_vdevs, hne, Bool.false_eq_true, if_false, List.mem_map,
          List.mem_filter, decide_eq_true_eq, Prod.mk.injEq] at hmem
        obtain ⟨c', ⟨hc', hv'⟩, _, hid⟩ := hmem
        have hcc := hinj hc' hc hid
        subst hcc
        exact hnot' hv'
      · simp only [load_vdevs, hne, Bool.false_eq_true, if_false, List.mem_filter,
          Bool.not_eq_eq_eq_not, Bool.not_true, decide_eq_false_iff_not]
        exact ⟨hc, hnot⟩
    · intro hyes
      have hcf : c ∈ chunks.filter
          (fun x => decide (x.vdev_id ∈ vdevInfos.map vdev_rec.vdev_id)) := by
        simp only [List.mem_filter, decide_eq_true_eq]
        exact ⟨hc, hyes⟩
      refine ⟨?_, ?_, ?_⟩ <;>
        simp only [load_vdevs, hne, Bool.false_eq_true, if_false]
      · exact List.mem_map_of_mem _ hcf
      · exact List.mem_map_of_mem _ hcf
      · exact List.mem_map_of_mem _ hcf

/-- The persisted vdev table of the C9 witness: one vdev with id 1. -/
def c9_vdevs : List vdev_rec := [⟨1⟩]

/-- The chunks of the C9 witness: chunk 10 owned by vdev 1, chunk 11
claiming the never-persisted vdev 5 (a dangling chunk). -/
def c9_chunks : List chunk_rec := [⟨10, 1⟩, ⟨11, 5⟩]

/-- The dangling chunk of the C9 witness. -/
def c9_dangling : chunk_rec := ⟨11, 5⟩

/-- Witness for C9 at the dangling chunk 11 of `c9_chunks`. -/
theorem load_vdevs_spec_witness :
    ((c9_chunks.map chunk_rec.chunk_id).Nodup) ∧ c9_dangling ∈ c9_chunks ∧
    ((c9_dangling.vdev_id ∉ c9_vdevs.map vdev_rec.vdev_id →
        c9_dangling.chunk_id ∉ (load_vdevs c9_vdevs c9_chunks).chunk_id_bits ∧
        c9_dangling.chunk_id ∉ (load_vdevs c9_vdevs c9_chunks).registered_chunks ∧
        (∀ v, (v, c9_dangling.chunk_id) ∉ (load_vdevs c9_vdevs c9_chunks).vdev_chunk_adds) ∧
        (c9_vdevs ≠ [] → c9_dangling ∈ (load_vdevs c9_vdevs c9_chunks).dangling_chunks)) ∧
     (c9_dangling.vdev_id ∈ c9_vdevs.map vdev_rec.vdev_id →
        c9_dangling.chunk_id ∈ (load_vdevs c9_vdevs c9_chunks).chunk_id_bits ∧
        c9_dangling.chunk_id ∈ (load_vdevs c9_vdevs c9_chunks).registered_chunks ∧
        (c9_dangling.vdev_id, c9_dangling.chunk_id)
            ∈ (load_vdevs c9_vdevs c9_chunks).vdev_chunk_adds)) :=
  ⟨by decide, by decide, load_vdevs_spec c9_vdevs c9_chunks (by decide) c9_dangling (by decide)⟩

/-- A successful `open_all_pdevs` opens exactly the presented devices, in
order. -/
theorem open_all_pdevs_ok_map (uuid : Nat) (ds : List dev_first_block) :
    ∀ l, open_all_pdevs uuid ds = Except.ok l → l = ds.map dev_first_block.pdev_id := by
  induction ds with
  | nil =>
    intro l h
    simp only [open_all_pdevs, Except.ok.injEq] at h
    simp [h.symm]
  | cons d rest ih =>
    intro l h
    unfold open_all_pdevs at h
    split at h
    · exact absurd h (by simp)
    · rcases hrec : open_all_pdevs uuid rest with e | l'
      · rw [hrec] at h
        exact absurd h (by simp)
      · rw [hrec] at h
        simp only [Except.ok.injEq] at h
        subst h
        simp [ih l' hrec]

/-- `open_all_pdevs` fails exactly when some presented device carries a
foreign system uuid. -/
theorem open_all_pdevs_error_iff (uuid : Nat) (ds : List dev_first_block) :
    (∃ e, open_all_pdevs uuid ds = Except.error e) ↔
      ∃ d ∈ ds, d.system_uuid ≠ uuid := by
  induction ds with
  | nil => simp [open_all_pdevs]
  | cons d rest ih =>
    by_cases hu : d.system_uuid = uuid
    · rcases hrec : open_all_pdevs uuid rest with e | l'
      · constructor
        · intro _
          obtain ⟨d', hd', hne⟩ := ih.mp ⟨e, hrec⟩
          exact ⟨d', List.mem_cons_of_mem _ hd', hne⟩
        · intro _
          refine ⟨e, ?_⟩
          unfold open_all_pdevs
          rw [if_neg (not_not_intro hu), hrec]
      · constructor
        · rintro ⟨e', he'⟩
          unfold open_all_pdevs at he'
          rw [if_neg (not_not_intro hu), hrec] at he'
          exact absurd he' (by simp)
        · rintro ⟨d', hd', hne⟩
          rcases List.mem_cons.mp hd' with h | h
          · exact absurd hu (h ▸ hne)
          · obtain ⟨e, he⟩ := ih.mpr ⟨d', h, hne⟩
            rw [he] at hrec
            exact absurd hrec (by simp)
    · constructor
      · intro _
        exact ⟨d, List.mem_cons_self _ _, hu⟩
      · intro _
        refine ⟨LoadDevError.uuid_mismatch d.dev_name, ?_⟩
        unfold open_all_pdevs
        rw [if_pos hu]

/-- C7: `load_devices` refuses in exactly three cases — stored superblock
version different from the current one, formatted pdev count different
from the presented device count, or some presented device stamped with a
foreign system uuid — and otherwise opens every presented device and loads
the vdev table. -/
theorem load_devices_spec (hdr : first_block_header) (devs : List dev_first_block)
    (vdevInfos : List vdev_rec) (chunks : List chunk_rec) :
    ((∃ e, load_devices hdr devs vdevInfos chunks = Except.error e) ↔
        (hdr.version ≠ CURRENT_SUPERBLOCK_VERSION ∨ hdr.num_pdevs ≠ devs.length ∨
         ∃ d ∈ devs, d.system_uuid ≠ hdr.system_uuid)) ∧
    (∀ r, load_devices hdr devs vdevInfos chunks = Except.ok r →
        r.opened_pdevs = devs.map dev_first_block.pdev_id ∧
        r.vdev_load = load_vdevs vdevInfos chunks) := by
  by_cases hv : hdr.version = CURRENT_SUPERBLOCK_VERSION
  · by_cases hn : hdr.num_pdevs = devs.length
    · have hload : load_devices hdr devs vdevInfos chunks
          = (match open_all_pdevs hdr.system_uuid devs with
             | Except.ok l =>
                 Except.ok { opened_pdevs := l, vdev_load := load_vdevs vdevInfos chunks }
             | Except.error e => Except.error e) := by
        unfold load_devices
        rw [if_neg (not_not_intro hv), if_neg (not_not_intro hn)]
      rcases hrec : open_all_pdevs hdr.system_uuid devs with e | l <;> rw [hrec] at hload
      · constructor
        · rw [hload]
          constructor
          · intro _
            exact Or.inr (Or.inr ((open_all_pdevs_error_iff _ _).mp ⟨e, hrec⟩))
          · intro _
            exact ⟨e, rfl⟩
        · intro r hr
          rw [hload] at hr
          exact absurd hr (by simp)
      · constructor
        · rw [hload]
          constructor
          · rintro ⟨e', he'⟩
            exact absurd he' (by simp)
          · rintro (h | h | h)
            · exact absurd hv h
            · exact absurd hn h
            · obtain ⟨e, he⟩ := (open_all_pdevs_error_iff _ _).mpr h
              rw [he] at hrec
              exact absurd hrec (by simp)
        · intro r hr
          rw [hload] at hr
          simp only [Except.ok.injEq] at hr
          subst hr
          exact ⟨open_all_pdevs_ok_map _ _ l hrec, rfl⟩
    · have hload : load_devices hdr devs vdevInfos chunks
          = Except.error LoadDevError.pdev_count_mismatch := by
        unfold load_devices
        rw [if_neg (not_not_intro hv), if_pos hn]
      refine ⟨?_, ?_⟩
      · rw [hload]
        exact ⟨fun _ => Or.inr (Or.inl hn), fun _ => ⟨_, rfl⟩⟩
      · intro r hr
        rw [hload] at hr
        exact absurd hr (by simp)
  · have hload : load_devices hdr devs vdevInfos chunks
        = Except.error LoadDevError.version_mismatch := by
      unfold load_devices
      rw [if_pos hv]
    refine ⟨?_, ?_⟩
    · rw [hload]
      exact ⟨fun _ => Or.inl hv, fun _ => ⟨_, rfl⟩⟩
    · intro r hr
      rw [hload] at hr
      exact absurd hr (by simp)

/-- The C7 witness header: current version, two pdevs, system uuid 42. -/
def c7_hdr : first_block_header :=
  { version := CURRENT_SUPERBLOCK_VERSION, num_pdevs := 2, system_uuid := 42 }

/-- The two matching presented devices of the C7 witness. -/
def c7_devs : List dev_first_block := [⟨100, 0, 42⟩, ⟨101, 1, 42⟩]

/-- Witness for C7 at a clean two-device boot. -/
theorem load_devices_spec_witness :
    ((∃ e, load_devices c7_hdr c7_devs [] [] = Except.error e) ↔
        (c7_hdr.version ≠ CURRENT_SUPERBLOCK_VERSION ∨ c7_hdr.num_pdevs ≠ c7_devs.length ∨
         ∃ d ∈ c7_devs, d.system_uuid ≠ c7_hdr.system_uuid)) ∧
    (∀ r, load_devices c7_hdr c7_devs [] [] = Except.ok r →
        r.opened_pdevs = c7_devs.map dev_first_block.pdev_id ∧
        r.vdev_load = load_vdevs [] []) :=
  load_devices_spec c7_hdr c7_devs [] []

/-- Witness for the amended C8 statement at the striped counterexample
inputs with a capacity that does not clamp (`max_num_chunks = 100`). -/
theorem create_vdev_layout_spec_witness :
    (c8_vparam.multi_pdev_opts = vdev_multi_pdev_opts_t.ALL_PDEV_STRIPED →
        round_up c8_vparam.num_chunks (total_streams c8_pdevs) ≤ 100 →
        (create_vdev_layout c8_vparam c8_pdevs 100).num_chunks
            = round_up c8_vparam.num_chunks (total_streams c8_pdevs) ∧
        total_streams c8_pdevs ∣ (create_vdev_layout c8_vparam c8_pdevs 100).num_chunks) ∧
    (c8_vparam.multi_pdev_opts = vdev_multi_pdev_opts_t.ALL_PDEV_MIRRORED →
        round_up c8_vparam.num_chunks (c8_pdevs.headD ⟨0⟩).num_streams * c8_pdevs.length ≤ 100 →
        (create_vdev_layout c8_vparam c8_pdevs 100).num_chunks
            = round_up c8_vparam.num_chunks (c8_pdevs.headD ⟨0⟩).num_streams * c8_pdevs.length) ∧
    (create_vdev_layout c8_vparam c8_pdevs 100).chunks_per_pdev
        = (create_vdev_layout c8_vparam c8_pdevs 100).num_chunks
            / (create_vdev_layout c8_vparam c8_pdevs 100).num_pdevs_used ∧
    (create_vdev_layout c8_vparam c8_pdevs 100).num_chunks ≤ 100 ∧
    (create_vdev_layout c8_vparam c8_pdevs 100).vdev_size
        = round_up c8_vparam.vdev_size
            ((create_vdev_layout c8_vparam c8_pdevs 100).num_chunks * c8_vparam.blk_size) ∧
    (0 < (create_vdev_layout c8_vparam c8_pdevs 100).num_chunks * c8_vparam.blk_size →
        c8_vparam.vdev_size ≤ (create_vdev_layout c8_vparam c8_pdevs 100).vdev_size) ∧
    (create_vdev_layout c8_vparam c8_pdevs 100).num_chunks
        * (create_vdev_layout c8_vparam c8_pdevs 100).chunk_size
      = (create_vdev_layout c8_vparam c8_pdevs 100).vdev_size :=
  create_vdev_layout_spec c8_vparam c8_pdevs 100

/-- Slot `i` of the switchover context table: the consumer's context for
registered slots, null otherwise. -/
theorem switchover_contexts_getD (tbl : List Bool) (o : Option Int) (n : Int)
    (i : Nat) (hi : i < tbl.length) :
    (switchover_contexts tbl o n).getD i none
      = if tbl.getD i false then some (CPContextTok.switched o n i) else none := by
  unfold switchover_contexts
  rw [List.getD_eq_getElem?_getD, List.getElem?_map, List.getElem?_range hi]
  rfl

/-- C4: a non-early-return `trigger_cp_flush` is exactly the critical
section followed by the guard release on the old CP, and inside the
critical section the new CP receives id `old + 1` and status
`cp_io_ready`, the old CP moves to `cp_flush_prepare`, every registered
consumer's `on_switchover_cp(old, new)` context is stored in the new CP
(null for unregistered slots), and the current-CP pointer ends at the new
CP. -/
theorem trigger_cp_flush_critical_section_spec (s : CPMgrState) (force : Bool)
    (hf : s.m_in_flush_phase = false) :
    trigger_cp_flush force s
      = (guard_release_old
            (trigger_critical_section { s with m_in_flush_phase := true }).1
            (trigger_critical_section { s with m_in_flush_phase := true }).2.1,
         (trigger_critical_section { s with m_in_flush_phase := true }).2.2) ∧
    (trigger_critical_section { s with m_in_flush_phase := true }).1.m_cur_cp.m_cp_id
        = s.m_cur_cp.m_cp_id + 1 ∧
    (trigger_critical_section { s with m_in_flush_phase := true }).1.m_cur_cp.m_cp_status
        = cp_io_ready ∧
    (trigger_critical_section { s with m_in_flush_phase := true }).2.1.m_cp_status
        = cp_flush_prepare ∧
    (trigger_critical_section { s with m_in_flush_phase := true }).2.1.m_cp_id
        = s.m_cur_cp.m_cp_id ∧
    (trigger_critical_section { s with m_in_flush_phase := true }).1.m_cur_cp.m_contexts
        = switchover_contexts s.m_cb_table (some s.m_cur_cp.m_cp_id)
            (s.m_cur_cp.m_cp_id + 1) ∧
    (∀ i, i < s.m_cb_table.length →
        (trigger_critical_section
            { s with m_in_flush_phase := true }).1.m_cur_cp.m_contexts.getD i none
          = if s.m_cb_table.getD i false
            then some (CPContextTok.switched (some s.m_cur_cp.m_cp_id)
                (s.m_cur_cp.m_cp_id + 1) i)
            else none) := by
  refine ⟨?_, rfl, rfl, rfl, ?_, rfl, ?_⟩
  · simp [trigger_cp_flush, hf]
  · cases hw : s.m_cur_cp.m_cp_waiting_to_trigger <;>
      simp [trigger_critical_section, hw, cp_ref]
  · intro i hi
    exact switchover_contexts_getD s.m_cb_table _ _ i hi

/-- An idle manager about to trigger its first flush, used to witness the
C4 statement. -/
def idleMgr : CPMgrState :=
  { m_cur_cp :=
      { m_cp_id := 5
        m_cp_status := cp_io_ready
        m_enter_cnt := 0
        m_cp_waiting_to_trigger := false
        m_comp_promise := 0
        m_contexts := [] }
    m_flushing_cp := none
    m_detached_cp := none
    m_in_flush_phase := false
    m_last_flushed_cp := 4
    m_cb_table := [true, false]
    m_next_promise := 1
    m_cp_shutdown_initiated := false
    m_events := [] }

/-- Witness for C4 at the idle manager with one registered consumer. -/
theorem trigger_cp_flush_critical_section_spec_witness :
    trigger_cp_flush true idleMgr
      = (guard_release_old
            (trigger_critical_section { idleMgr with m_in_flush_phase := true }).1
            (trigger_critical_section { idleMgr with m_in_flush_phase := true }).2.1,
         (trigger_critical_section { idleMgr with m_in_flush_phase := true }).2.2) ∧
    (trigger_critical_section { idleMgr with m_in_flush_phase := true }).1.m_cur_cp.m_cp_id
        = idleMgr.m_cur_cp.m_cp_id + 1 ∧
    (trigger_critical_section
        { idleMgr with m_in_flush_phase := true }).1.m_cur_cp.m_cp_status
        = cp_io_ready ∧
    (trigger_critical_section { idleMgr with m_in_flush_phase := true }).2.1.m_cp_status
        = cp_flush_prepare ∧
    (trigger_critical_section { idleMgr with m_in_flush_phase := true }).2.1.m_cp_id
        = idleMgr.m_cur_cp.m_cp_id ∧
    (trigger_critical_section
        { idleMgr with m_in_flush_phase := true }).1.m_cur_cp.m_contexts
        = switchover_contexts idleMgr.m_cb_table (some idleMgr.m_cur_cp.m_cp_id)
            (idleMgr.m_cur_cp.m_cp_id + 1) ∧
    (∀ i, i < idleMgr.m_cb_table.length →
        (trigger_critical_section
            { idleMgr with m_in_flush_phase := true }).1.m_cur_cp.m_contexts.getD i none
          = if idleMgr.m_cb_table.getD i false
            then some (CPContextTok.switched (some idleMgr.m_cur_cp.m_cp_id)
                (idleMgr.m_cur_cp.m_cp_id + 1) i)
            else none) :=
  trigger_cp_flush_critical_section_spec idleMgr true rfl

/-- The critical section neither emits events nor touches the persisted
last-flushed id. -/
theorem trigger_critical_section_aux (s : CPMgrState) :
    (trigger_critical_section s).1.m_events = s.m_events ∧
    (trigger_critical_section s).1.m_last_flushed_cp = s.m_last_flushed_cp := by
  cases hw : s.m_cur_cp.m_cp_waiting_to_trigger <;>
    simp [trigger_critical_section, hw, cp_ref]

/-- `guard_release_old` only appends events and keeps the persisted
last-flushed id. -/
theorem guard_release_old_aux (s : CPMgrState) (old : CP) :
    (∃ d, (guard_release_old s old).m_events = s.m_events ++ d) ∧
    (guard_release_old s old).m_last_flushed_cp = s.m_last_flushed_cp := by
  cases hfire : cp_exit_fires old
  · refine ⟨⟨[], ?_⟩, ?_⟩ <;> simp [guard_release_old, hfire]
  · refine ⟨⟨[CPEvent.flush_fanout (cp_io_exit s.m_cb_table old).1.m_cp_id
        (cp_io_exit s.m_cb_table old).2], ?_⟩, ?_⟩ <;>
      simp [guard_release_old, hfire]

/-- `guard_exit_detached` only appends events and keeps the persisted
last-flushed id. -/
theorem guard_exit_detached_aux (s : CPMgrState) :
    (∃ d, (guard_exit_detached s).m_events = s.m_events ++ d) ∧
    (guard_exit_detached s).m_last_flushed_cp = s.m_last_flushed_cp := by
  rcases hdet : s.m_detached_cp with _ | old
  · refine ⟨⟨[], ?_⟩, ?_⟩ <;> simp [guard_exit_detached, hdet]
  · cases hfire : cp_exit_fires old
    · refine ⟨⟨[], ?_⟩, ?_⟩ <;> simp [guard_exit_detached, hdet, hfire]
    · refine ⟨⟨[CPEvent.flush_fanout (cp_io_exit s.m_cb_table old).1.m_cp_id
          (cp_io_exit s.m_cb_table old).2], ?_⟩, ?_⟩ <;>
        simp [guard_exit_detached, hdet, hfire]

/-- `trigger_cp_flush` only appends events and keeps the persisted
last-flushed id. -/
theorem trigger_cp_flush_aux (force : Bool) (s : CPMgrState) :
    (∃ d, ((trigger_cp_flush force s).1).m_events = s.m_events ++ d) ∧
    ((trigger_cp_flush force s).1).m_last_flushed_cp = s.m_last_flushed_cp := by
  cases hfl : s.m_in_flush_phase
  · have heq : (trigger_cp_flush force s).1
        = guard_release_old
            (trigger_critical_section { s with m_in_flush_phase := true }).1
            (trigger_critical_section { s with m_in_flush_phase := true }).2.1 := by
      simp [trigger_cp_flush, hfl]
    obtain ⟨⟨d, hd⟩, hl⟩ := guard_release_old_aux
        (trigger_critical_section { s with m_in_flush_phase := true }).1
        (trigger_critical_section { s with m_in_flush_phase := true }).2.1
    have hev := (trigger_critical_section_aux { s with m_in_flush_phase := true }).1
    have hlf := (trigger_critical_section_aux { s with m_in_flush_phase := true }).2
    refine ⟨⟨d, ?_⟩, ?_⟩
    · rw [heq, hd, hev]
    · rw [heq, hl, hlf]
  · cases force
    · refine ⟨⟨[], ?_⟩, ?_⟩ <;> simp [trigger_cp_flush, hfl]
    · cases hw : s.m_cur_cp.m_cp_waiting_to_trigger <;>
        · refine ⟨⟨[], ?_⟩, ?_⟩ <;>
            simp [trigger_cp_flush, hfl, hw, guard_exit_current, cp_ref]

/-- C5: `on_cp_flush_done` persists the incremented last-flushed CP id
(the superblock write event comes before the promise resolution, which
comes before the in-flush flag clear, in the emitted event order), so the
persisted frontier equals the flushed CP's id, and a first CP created from
that superblock after restart carries id `last_flushed + 1`. -/
theorem on_cp_flush_done_spec (s : CPMgrState) (cp : CP)
    (hst : cp.m_cp_status = cp_flushing)
    (hid : cp.m_cp_id = s.m_last_flushed_cp + 1)
    (hsd : s.m_cp_shutdown_initiated = false) :
    (on_cp_flush_done s cp).m_last_flushed_cp = cp.m_cp_id ∧
    cp.m_cp_id ≤ (on_cp_flush_done s cp).m_last_flushed_cp ∧
    (∃ tail, (on_cp_flush_done s cp).m_events
        = s.m_events
          ++ [CPEvent.sb_write cp.m_cp_id, CPEvent.cleanup cp.m_cp_id,
              CPEvent.resolve cp.m_comp_promise true, CPEvent.in_flush_cleared]
          ++ tail) ∧
    (∀ pid, (create_first_cp (on_cp_flush_done s cp).m_last_flushed_cp pid).m_cp_id
        = cp.m_cp_id + 1) := by
  cases hw : s.m_cur_cp.m_cp_waiting_to_trigger
  · have h1 : (on_cp_flush_done s cp).m_last_flushed_cp = cp.m_cp_id := by
      simp [on_cp_flush_done, hsd, hw, cp_ref, guard_exit_current, hid]
    refine ⟨h1, le_of_eq h1.symm, ⟨[], ?_⟩, fun pid => ?_⟩
    · simp [on_cp_flush_done, hsd, hw, cp_ref, guard_exit_current, hid]
    · simp [create_first_cp, CP.fresh, h1]
  · have key : on_cp_flush_done s cp
        = guard_exit_detached ((trigger_cp_flush false
            { s with
                m_cur_cp := cp_ref s.m_cur_cp
                m_flushing_cp := none
                m_in_flush_phase := false
                m_last_flushed_cp := s.m_last_flushed_cp + 1
                m_events := s.m_events
                  ++ [CPEvent.sb_write (s.m_last_flushed_cp + 1),
                      CPEvent.cleanup cp.m_cp_id,
                      CPEvent.resolve cp.m_comp_promise true,
                      CPEvent.in_flush_cleared, CPEvent.b2b_trigger] }).1) := by
      simp [on_cp_flush_done, hsd, hw, cp_ref]
    obtain ⟨⟨d6, hd6⟩, hl6⟩ := trigger_cp_flush_aux false
        { s with
            m_cur_cp := cp_ref s.m_cur_cp
            m_flushing_cp := none
            m_in_flush_phase := false
            m_last_flushed_cp := s.m_last_flushed_cp + 1
            m_events := s.m_events
              ++ [CPEvent.sb_write (s.m_last_flushed_cp + 1),
                  CPEvent.cleanup cp.m_cp_id,
                  CPEvent.resolve cp.m_comp_promise true,
                  CPEvent.in_flush_cleared, CPEvent.b2b_trigger] }
    obtain ⟨⟨d7, hd7⟩, hl7⟩ := guard_exit_detached_aux ((trigger_cp_flush false
        { s with
            m_cur_cp := cp_ref s.m_cur_cp
            m_flushing_cp := none
            m_in_flush_phase := false
            m_last_flushed_cp := s.m_last_flushed_cp + 1
            m_events := s.m_events
              ++ [CPEvent.sb_write (s.m_last_flushed_cp + 1),
                  CPEvent.cleanup cp.m_cp_id,
                  CPEvent.resolve cp.m_comp_promise true,
                  CPEvent.in_flush_cleared, CPEvent.b2b_trigger] }).1)
    have h1 : (on_cp_flush_done s cp).m_last_flushed_cp = cp.m_cp_id := by
      rw [key, hl7, hl6, hid]
    refine ⟨h1, le_of_eq h1.symm, ⟨[CPEvent.b2b_trigger] ++ d6 ++ d7, ?_⟩, fun pid => ?_⟩
    · rw [key, hd7, hd6]
      simp [hid]
    · simp [create_first_cp, CP.fresh, h1]

/-- C1: while a CP flush is in progress (`m_in_flush_phase` held by the
flushing CP `fc`), `trigger_cp_flush(false)` returns a future already
resolved with `false` and changes nothing; the first `trigger_cp_flush
(true)` installs one shared promise on the current CP and marks it
waiting-to-trigger, a second forcer receives a future of the same promise,
and that promise — distinct from the in-progress CP's own — travels with
the back-to-back CP: completing the in-progress flush resolves `fc`'s own
promise and starts the back-to-back CP carrying the shared promise, whose
completion resolves it, so the whole run resolves the forcers' promise
exactly once. -/
theorem trigger_cp_flush_in_progress_spec (s0 : CPMgrState) (fc : CP)
    (hfl : s0.m_in_flush_phase = true)
    (hfc : s0.m_flushing_cp = some fc)
    (hfst : fc.m_cp_status = cp_flushing)
    (hcst : s0.m_cur_cp.m_cp_status = cp_io_ready)
    (hw : s0.m_cur_cp.m_cp_waiting_to_trigger = false)
    (hcnt : s0.m_cur_cp.m_enter_cnt = 0)
    (hsd : s0.m_cp_shutdown_initiated = false)
    (hfresh : fc.m_comp_promise < s0.m_next_promise)
    (hev : s0.m_events = []) :
    trigger_cp_flush false s0 = (s0, FutureRet.resolvedNow false) ∧
    (trigger_cp_flush true s0).2 = FutureRet.fromPromise s0.m_next_promise ∧
    ((trigger_cp_flush true s0).1).m_cur_cp.m_cp_waiting_to_trigger = true ∧
    ((trigger_cp_flush true s0).1).m_cur_cp.m_comp_promise = s0.m_next_promise ∧
    (trigger_cp_flush true ((trigger_cp_flush true s0).1)).2
        = FutureRet.fromPromise s0.m_next_promise ∧
    s0.m_next_promise ≠ fc.m_comp_promise ∧
    ((complete_flush ((trigger_cp_flush true
        ((trigger_cp_flush true s0).1)).1)).m_flushing_cp.map CP.m_comp_promise
        = some s0.m_next_promise) ∧
    ((complete_flush ((trigger_cp_flush true
        ((trigger_cp_flush true s0).1)).1)).m_flushing_cp.map CP.m_cp_status
        = some cp_flushing) ∧
    ((complete_flush (complete_flush ((trigger_cp_flush true
        ((trigger_cp_flush true s0).1)).1))).m_events).count
        (CPEvent.resolve s0.m_next_promise true) = 1 ∧
    ((complete_flush (complete_flush ((trigger_cp_flush true
        ((trigger_cp_flush true s0).1)).1))).m_events).count
        (CPEvent.resolve fc.m_comp_promise true) = 1 := by
  obtain ⟨cur, fl, det, infl, last, tbl, np, sd, ev⟩ := s0
  obtain ⟨cid, cst, ccnt, cwait, cprom, cctx⟩ := cur
  dsimp only at hfl hfc hcst hw hcnt hsd hfresh hev ⊢
  subst hfl hfc hcst hw hcnt hsd hev
  have hne : np ≠ fc.m_comp_promise := (Nat.ne_of_lt hfresh).symm
  refine ⟨?_, ?_, ?_, ?_, ?_, hne, ?_, ?_, ?_, ?_⟩ <;>
    simp [trigger_cp_flush, trigger_critical_section, guard_release_old,
      guard_exit_detached, guard_exit_current, complete_flush, on_cp_flush_done,
      cp_ref, cp_io_exit, cp_start_flush, cp_exit_fires, CP.fresh, hfst, hne,
      Ne.symm hne, List.count_cons]

/-- A manager mid-flush of CP 5 (current CP 6 idle), used to witness C1. -/
def midFlushMgr : CPMgrState :=
  { m_cur_cp :=
      { m_cp_id := 6
        m_cp_status := cp_io_ready
        m_enter_cnt := 0
        m_cp_waiting_to_trigger := false
        m_comp_promise := 2
        m_contexts := [] }
    m_flushing_cp := some
      { m_cp_id := 5
        m_cp_status := cp_flushing
        m_enter_cnt := 0
        m_cp_waiting_to_trigger := false
        m_comp_promise := 1
        m_contexts := [] }
    m_detached_cp := none
    m_in_flush_phase := true
    m_last_flushed_cp := 4
    m_cb_table := [true]
    m_next_promise := 3
    m_cp_shutdown_initiated := false
    m_events := [] }

/-- The CP being flushed in the C1 witness. -/
def midFlushCp : CP :=
  { m_cp_id := 5
    m_cp_status := cp_flushing
    m_enter_cnt := 0
    m_cp_waiting_to_trigger := false
    m_comp_promise := 1
    m_contexts := [] }

/-- Witness for C1 at the mid-flush manager. -/
theorem trigger_cp_flush_in_progress_spec_witness :
    trigger_cp_flush false midFlushMgr = (midFlushMgr, FutureRet.resolvedNow false) ∧
    (trigger_cp_flush true midFlushMgr).2 = FutureRet.fromPromise midFlushMgr.m_next_promise ∧
    ((trigger_cp_flush true midFlushMgr).1).m_cur_cp.m_cp_waiting_to_trigger = true ∧
    ((trigger_cp_flush true midFlushMgr).1).m_cur_cp.m_comp_promise
        = midFlushMgr.m_next_promise ∧
    (trigger_cp_flush true ((trigger_cp_flush true midFlushMgr).1)).2
        = FutureRet.fromPromise midFlushMgr.m_next_promise ∧
    midFlushMgr.m_next_promise ≠ midFlushCp.m_comp_promise ∧
    ((complete_flush ((trigger_cp_flush true
        ((trigger_cp_flush true midFlushMgr).1)).1)).m_flushing_cp.map CP.m_comp_promise
        = some midFlushMgr.m_next_promise) ∧
    ((complete_flush ((trigger_cp_flush true
        ((trigger_cp_flush true midFlushMgr).1)).1)).m_flushing_cp.map CP.m_cp_status
        = some cp_flushing) ∧
    ((complete_flush (complete_flush ((trigger_cp_flush true
        ((trigger_cp_flush true midFlushMgr).1)).1))).m_events).count
        (CPEvent.resolve midFlushMgr.m_next_promise true) = 1 ∧
    ((complete_flush (complete_flush ((trigger_cp_flush true
        ((trigger_cp_flush true midFlushMgr).1)).1))).m_events).count
        (CPEvent.resolve midFlushCp.m_comp_promise true) = 1 :=
  trigger_cp_flush_in_progress_spec midFlushMgr midFlushCp rfl rfl rfl rfl rfl rfl rfl
    (by decide) rfl

/-- A manager whose flushed CP 5 just completed, witnessing C5. -/
def doneMgr : CPMgrState :=
  { m_cur_cp :=
      { m_cp_id := 6
        m_cp_status := cp_io_ready
        m_enter_cnt := 0
        m_cp_waiting_to_trigger := false
        m_comp_promise := 2
        m_contexts := [] }
    m_flushing_cp := none
    m_detached_cp := none
    m_in_flush_phase := true
    m_last_flushed_cp := 4
    m_cb_table := [true]
    m_next_promise := 3
    m_cp_shutdown_initiated := false
    m_events := [] }

/-- The CP whose flush completed in the C5 witness. -/
def doneCp : CP :=
  { m_cp_id := 5
    m_cp_status := cp_flushing
    m_enter_cnt := 0
    m_cp_waiting_to_trigger := false
    m_comp_promise := 1
    m_contexts := [] }

/-- Witness for C5 at the completed CP 5. -/
theorem on_cp_flush_done_spec_witness :
    doneCp.m_cp_status = cp_flushing ∧ doneCp.m_cp_id = doneMgr.m_last_flushed_cp + 1 ∧
    ((on_cp_flush_done doneMgr doneCp).m_last_flushed_cp = doneCp.m_cp_id ∧
     doneCp.m_cp_id ≤ (on_cp_flush_done doneMgr doneCp).m_last_flushed_cp ∧
     (∃ tail, (on_cp_flush_done doneMgr doneCp).m_events
        = doneMgr.m_events
          ++ [CPEvent.sb_write doneCp.m_cp_id, CPEvent.cleanup doneCp.m_cp_id,
              CPEvent.resolve doneCp.m_comp_promise true, CPEvent.in_flush_cleared]
          ++ tail) ∧
     (∀ pid, (create_first_cp (on_cp_flush_done doneMgr doneCp).m_last_flushed_cp pid).m_cp_id
        = doneCp.m_cp_id + 1)) :=
  ⟨rfl, by decide, on_cp_flush_done_spec doneMgr doneCp rfl (by decide) rfl⟩

end HomeStoreModel
